import Mathlib

/- Shallow embedding of the TaskManager persistence and query layer of
src/main.py (a Tkinter Kanban to-do application).  A task is a dict with
keys id, title, status, date; the manager keeps a list of tasks in memory
and rewrites a JSON file after every mutation.  The JSON file contents are
modelled explicitly so the save/load round trip can be stated. -/

/-- A task record as stored by TaskManager in src/main.py: a dict with
keys id (a Python int), title, status and date (strings). -/
structure TodoTask where
  id : Int
  title : String
  status : String
  date : String
  deriving DecidableEq

/-- JSON values, as produced by json.dump and consumed by json.load for
the tasks.json file (src/main.py lines 15-26). -/
inductive Json where
  | num (n : Int)
  | str (s : String)
  | arr (elems : List Json)
  | obj (fields : List (String × Json))

/-- The json.dump encoding of one task dict (the dict literal built in
add_task, src/main.py lines 30-35, with keys in insertion order). -/
def encodeTask (t : TodoTask) : Json :=
  Json.obj [("id", Json.num t.id), ("title", Json.str t.title),
            ("status", Json.str t.status), ("date", Json.str t.date)]

/-- json.dump of the whole task list: a JSON array of task objects. -/
def dumpTasks (ts : List TodoTask) : Json :=
  Json.arr (ts.map encodeTask)

/-- Key lookup in a JSON object, mirroring Python dict access on the
parsed file. -/
def jlookup (fields : List (String × Json)) (key : String) : Option Json :=
  match fields with
  | [] => none
  | (k, v) :: rest => if k = key then some v else jlookup rest key

/-- Reading one task back from its parsed JSON object.  json.load itself
performs no validation; this decoder expresses that the rest of the code
reads exactly the four fields id, title, status, date from each dict. -/
def decodeTask (j : Json) : Option TodoTask :=
  match j with
  | Json.obj fields =>
    match jlookup fields "id", jlookup fields "title",
          jlookup fields "status", jlookup fields "date" with
    | some (Json.num i), some (Json.str t), some (Json.str s), some (Json.str d) =>
        some { id := i, title := t, status := s, date := d }
    | _, _, _, _ => none
  | _ => none

/-- Reading back a list of task objects, failing if any element fails. -/
def decodeTaskList : List Json → Option (List TodoTask)
  | [] => some []
  | j :: js =>
    match decodeTask j, decodeTaskList js with
    | some t, some ts => some (t :: ts)
    | _, _ => none

/-- Parsing the whole tasks.json contents: a JSON array of task objects. -/
def parseTasks : Json → Option (List TodoTask)
  | Json.arr js => decodeTaskList js
  | _ => none

/-- The TaskManager state: the in-memory task list self.tasks together
with the contents of the backing file DATA_FILE (none when the file does
not exist). -/
structure TaskManager where
  tasks : List TodoTask
  file : Option Json

/-- TaskManager.save_tasks (src/main.py lines 23-26): serialize the whole
current collection to the backing file, overwriting prior contents. -/
def save_tasks (m : TaskManager) : TaskManager :=
  { m with file := some (dumpTasks m.tasks) }

/-- TaskManager.load_tasks (src/main.py lines 15-21): if the backing file
exists, parse its contents as the task collection, otherwise start from
an empty collection.  A file whose contents do not parse as a list of
task records is a failure (none), matching the unhandled exception in
the source. -/
def load_tasks (m : TaskManager) : Option TaskManager :=
  match m.file with
  | none => some { m with tasks := [] }
  | some j =>
    match parseTasks j with
    | some ts => some { m with tasks := ts }
    | none => none

/-- TaskManager.add_task (src/main.py lines 28-37): build a new task dict
with id = len(self.tasks) + 1 and the given title, status and date,
append it, and save. -/
def add_task (title status date_str : String) (m : TaskManager) : TaskManager :=
  save_tasks { m with
    tasks := m.tasks ++
      [{ id := (m.tasks.length : Int) + 1, title := title,
         status := status, date := date_str }] }

/-- The for-loop of TaskManager.update_task_status (src/main.py lines
41-44): overwrite the status of the first task whose id matches, then
stop (the loop breaks after the first match). -/
def updateFirst (task_id : Int) (new_status : String) : List TodoTask → List TodoTask
  | [] => []
  | t :: ts =>
    if t.id = task_id then { t with status := new_status } :: ts
    else t :: updateFirst task_id new_status ts

/-- TaskManager.update_task_status (src/main.py lines 39-45): update the
first matching task's status (a silent no-op when no id matches), then
save. -/
def update_task_status (task_id : Int) (new_status : String) (m : TaskManager) : TaskManager :=
  save_tasks { m with tasks := updateFirst task_id new_status m.tasks }

/-- TaskManager.delete_task (src/main.py lines 47-50): keep exactly the
tasks whose id differs from task_id, then save. -/
def delete_task (task_id : Int) (m : TaskManager) : TaskManager :=
  save_tasks { m with tasks := m.tasks.filter (fun t => t.id != task_id) }

/-- TaskManager.get_tasks_by_status (src/main.py lines 52-54): the tasks
whose status equals the argument, in collection order.  A pure read. -/
def get_tasks_by_status (status : String) (m : TaskManager) : List TodoTask :=
  m.tasks.filter (fun t => t.status == status)

/-- Python str.strip() with no argument: remove leading and trailing
whitespace characters. -/
def pyStrip (s : String) : String :=
  String.mk (((s.toList.dropWhile Char.isWhitespace).reverse.dropWhile
    Char.isWhitespace).reverse)

/-- The confirm callback of KanbanApp.add_task_dialog (src/main.py lines
183-192): strip the entered title; if the result is empty, warn and do
not touch the store; otherwise call add_task(title, "To do", date). -/
def confirmAddTask (rawTitle : String) (date_str : String) (m : TaskManager) : TaskManager :=
  let title := pyStrip rawTitle
  if title = "" then m else add_task title "To do" date_str m

/-- The manager state at first launch: empty collection, no backing file
(TaskManager.__init__ with DATA_FILE absent, src/main.py lines 11-13). -/
def initialManager : TaskManager :=
  { tasks := [], file := none }

/-- States produced from the empty collection by any sequence of
add_task, update_task_status and delete_task calls with arbitrary
arguments (the notion of reachability used by the claims on the store). -/
inductive Reachable : TaskManager → Prop where
  | init : Reachable initialManager
  | add (title status date_str : String) {m : TaskManager} :
      Reachable m → Reachable (add_task title status date_str m)
  | update (task_id : Int) (new_status : String) {m : TaskManager} :
      Reachable m → Reachable (update_task_status task_id new_status m)
  | del (task_id : Int) {m : TaskManager} :
      Reachable m → Reachable (delete_task task_id m)

/-- The three Kanban column names (src/main.py lines 106-108). -/
def statusValues : List String :=
  ["To do", "Doing", "Done"]

/-- States produced from the empty collection through the store calls the
KanbanApp UI can actually make: add_task is only called with status
"To do" (line 190), update_task_status only with one of the three column
names (the move buttons, lines 153-160), delete_task with any id. -/
inductive ReachableUI : TaskManager → Prop where
  | init : ReachableUI initialManager
  | add (title date_str : String) {m : TaskManager} :
      ReachableUI m → ReachableUI (add_task title "To do" date_str m)
  | update (task_id : Int) (new_status : String) {m : TaskManager} :
      new_status ∈ statusValues → ReachableUI m →
      ReachableUI (update_task_status task_id new_status m)
  | del (task_id : Int) {m : TaskManager} :
      ReachableUI m → ReachableUI (delete_task task_id m)

/- Concrete states used by counterexamples and witnesses. -/

/-- Example task 1. -/
def exTask1 : TodoTask :=
  { id := 1, title := "a", status := "To do", date := "2024-01-01" }

/-- Example task 2. -/
def exTask2 : TodoTask :=
  { id := 2, title := "b", status := "To do", date := "2024-01-02" }

/-- An example store holding two tasks. -/
def exampleM : TaskManager :=
  { tasks := [exTask1, exTask2], file := none }

/- Helper lemmas about the list-level operations. -/

/-- When no task has the id, the update loop walks the whole list without
changing anything. -/
theorem updateFirst_nomatch (task_id : Int) (new_status : String)
    (ts : List TodoTask) (h : ∀ t ∈ ts, t.id ≠ task_id) :
    updateFirst task_id new_status ts = ts := by
  induction ts with
  | nil => rfl
  | cons t ts ih =>
    have ht : t.id ≠ task_id := h t (List.mem_cons_self t ts)
    simp only [updateFirst, if_neg ht]
    rw [ih (fun u hu => h u (List.mem_cons_of_mem t hu))]

/-- When the first matching task is t0, the update loop rewrites exactly
its status and leaves the prefix and the suffix untouched. -/
theorem updateFirst_split (task_id : Int) (new_status : String)
    (pre post : List TodoTask) (t0 : TodoTask)
    (hpre : ∀ u ∈ pre, u.id ≠ task_id) (h0 : t0.id = task_id) :
    updateFirst task_id new_status (pre ++ t0 :: post) =
      pre ++ { t0 with status := new_status } :: post := by
  induction pre with
  | nil => simp [updateFirst, if_pos h0]
  | cons p pre ih =>
    have hp : p.id ≠ task_id := hpre p (List.mem_cons_self p pre)
    simp only [List.cons_append, updateFirst, if_neg hp]
    show p :: updateFirst task_id new_status (pre ++ t0 :: post) = _
    rw [ih (fun u hu => hpre u (List.mem_cons_of_mem p hu))]

/-- Every element of the updated list is an old element or carries the
new status. -/
theorem mem_updateFirst (task_id : Int) (new_status : String)
    {u : TodoTask} {ts : List TodoTask}
    (hu : u ∈ updateFirst task_id new_status ts) :
    u ∈ ts ∨ u.status = new_status := by
  induction ts with
  | nil => simp [updateFirst] at hu
  | cons t ts ih =>
    by_cases h : t.id = task_id
    · simp only [updateFirst, if_pos h] at hu
      rcases List.mem_cons.mp hu with h1 | h1
      · right
        rw [h1]
      · left
        exact List.mem_cons_of_mem t h1
    · simp only [updateFirst, if_neg h] at hu
      rcases List.mem_cons.mp hu with h1 | h1
      · left
        rw [h1]
        exact List.mem_cons_self t ts
      · rcases ih h1 with h2 | h2
        · exact Or.inl (List.mem_cons_of_mem t h2)
        · exact Or.inr h2

/-- With pairwise-distinct ids, every task of the updated list whose id is
the updated one carries the new status. -/
theorem updateFirst_unique_status (task_id : Int) (new_status : String)
    {ts : List TodoTask} (hpw : ts.Pairwise (fun a b => a.id ≠ b.id)) :
    ∀ u ∈ updateFirst task_id new_status ts, u.id = task_id → u.status = new_status := by
  induction ts with
  | nil =>
    intro u hu
    simp [updateFirst] at hu
  | cons t ts ih =>
    rcases List.pairwise_cons.mp hpw with ⟨hhead, htail⟩
    intro u hu hid
    by_cases h : t.id = task_id
    · simp only [updateFirst, if_pos h] at hu
      rcases List.mem_cons.mp hu with h1 | h1
      · rw [h1]
      · exact absurd (h.trans hid.symm) (hhead u h1)
    · simp only [updateFirst, if_neg h] at hu
      rcases List.mem_cons.mp hu with h1 | h1
      · exact absurd (h1 ▸ hid) h
      · exact ih htail u h1 hid

/-- If some task of the list has the id, the updated list holds a task
with that id and the new status. -/
theorem updateFirst_found (task_id : Int) (new_status : String)
    {ts : List TodoTask} {t0 : TodoTask}
    (h0 : t0 ∈ ts) (hid : t0.id = task_id) :
    ∃ u ∈ updateFirst task_id new_status ts, u.id = task_id ∧ u.status = new_status := by
  induction ts with
  | nil => cases h0
  | cons t ts ih =>
    by_cases h : t.id = task_id
    · refine ⟨{ t with status := new_status }, ?_, h, rfl⟩
      simp only [updateFirst, if_pos h]
      exact List.mem_cons_self _ ts
    · have h0' : t0 ∈ ts := by
        rcases List.mem_cons.mp h0 with h1 | h1
        · exact absurd (h1 ▸ hid) h
        · exact h1
      rcases ih h0' with ⟨u, hu, hid2, hst⟩
      refine ⟨u, ?_, hid2, hst⟩
      simp only [updateFirst, if_neg h]
      exact List.mem_cons_of_mem t hu

/-- Filtering twice with the same predicate equals filtering once. -/
theorem filter_twice {α : Type} (p : α → Bool) (l : List α) :
    (l.filter p).filter p = l.filter p := by
  induction l with
  | nil => rfl
  | cons a l ih =>
    by_cases h : p a = true
    · simp [List.filter_cons, h, ih]
    · simp [List.filter_cons, h, ih]

/- Round-trip lemmas for the JSON encoding. -/

/-- Decoding an encoded task gives the task back. -/
theorem decodeTask_encodeTask (t : TodoTask) :
    decodeTask (encodeTask t) = some t := by
  simp [decodeTask, encodeTask, jlookup]

/-- Decoding an encoded task list gives the list back. -/
theorem decodeTaskList_map_encode (ts : List TodoTask) :
    decodeTaskList (ts.map encodeTask) = some ts := by
  induction ts with
  | nil => rfl
  | cons t ts ih => simp [decodeTaskList, decodeTask_encodeTask, ih]

/-- Parsing a dumped collection gives the collection back. -/
theorem parseTasks_dumpTasks (ts : List TodoTask) :
    parseTasks (dumpTasks ts) = some ts := by
  simp [parseTasks, dumpTasks, decodeTaskList_map_encode]

/- Claim theorems. -/

/-- A reachable state with two tasks carrying the same id: add two tasks,
delete the first, add a third. -/
def c1State : TaskManager :=
  add_task "c" "To do" "2024-01-03" (delete_task 1
    (add_task "b" "To do" "2024-01-02" (add_task "a" "To do" "2024-01-01" initialManager)))

/-- A reachable state in which the id of a deleted task has been handed to
a later-added task: add a task with id 1, delete it, add another. -/
def c1StateB : TaskManager :=
  add_task "b" "To do" "2024-01-02" (delete_task 1
    (add_task "a" "To do" "2024-01-01" initialManager))

/-- C1: the claimed invariant fails on the code.  Because add_task assigns
id = len(self.tasks) + 1, the reachable state c1State (add, add,
delete 1, add) holds two tasks with id 2, so ids are not pairwise
distinct; and in the reachable state c1StateB (add, delete 1, add) the id
1 of the deleted task is assigned again to a later-added task. -/
theorem id_uniqueness_violated :
    (Reachable c1State ∧ ¬ (c1State.tasks.map TodoTask.id).Nodup) ∧
    (Reachable c1StateB ∧ c1StateB.tasks.map TodoTask.id = [1]) :=
  ⟨⟨Reachable.add "c" "To do" "2024-01-03" (Reachable.del 1
      (Reachable.add "b" "To do" "2024-01-02"
        (Reachable.add "a" "To do" "2024-01-01" Reachable.init))),
    by decide⟩,
   ⟨Reachable.add "b" "To do" "2024-01-02" (Reachable.del 1
      (Reachable.add "a" "To do" "2024-01-01" Reachable.init)),
    by decide⟩⟩

/-- C2: add_task constructs exactly one new task whose id is the current
collection length plus 1, appends it at the end leaving all previously
present tasks unchanged and in their order, and persists the full
collection. -/
theorem add_task_spec (m : TaskManager) (title status date_str : String) :
    (add_task title status date_str m).tasks =
      m.tasks ++ [{ id := (m.tasks.length : Int) + 1, title := title,
                    status := status, date := date_str }] ∧
    (add_task title status date_str m).tasks.length = m.tasks.length + 1 ∧
    (add_task title status date_str m).tasks.take m.tasks.length = m.tasks ∧
    (add_task title status date_str m).file =
      some (dumpTasks ((add_task title status date_str m).tasks)) := by
  refine ⟨rfl, ?_, ?_, rfl⟩
  · simp [add_task, save_tasks]
  · simp [add_task, save_tasks]

/-- C3: update_task_status overwrites the status of the first task in
collection order whose id matches; when no task has the id the collection
is left exactly unchanged (a silent no-op); in both cases the collection
is persisted afterward. -/
theorem update_task_status_spec (m : TaskManager) (task_id : Int) (new_status : String) :
    ((∀ t ∈ m.tasks, t.id ≠ task_id) →
       (update_task_status task_id new_status m).tasks = m.tasks) ∧
    (∀ pre t0 post, m.tasks = pre ++ t0 :: post →
       (∀ u ∈ pre, u.id ≠ task_id) → t0.id = task_id →
       ∃ u, (update_task_status task_id new_status m).tasks = pre ++ u :: post ∧
         u.status = new_status ∧ u.id = t0.id ∧ u.title = t0.title ∧ u.date = t0.date) ∧
    (update_task_status task_id new_status m).file =
      some (dumpTasks ((update_task_status task_id new_status m).tasks)) := by
  refine ⟨?_, ?_, rfl⟩
  · intro h
    show updateFirst task_id new_status m.tasks = m.tasks
    exact updateFirst_nomatch task_id new_status m.tasks h
  · intro pre t0 post hsplit hpre h0
    refine ⟨{ t0 with status := new_status }, ?_, rfl, rfl, rfl, rfl⟩
    show updateFirst task_id new_status m.tasks = _
    rw [hsplit]
    exact updateFirst_split task_id new_status pre post t0 hpre h0

/-- C3 witness: on the two-task example store, updating a missing id 5 is
a no-op and updating id 2 overwrites exactly the status of the second
task. -/
theorem update_task_status_spec_witness :
    (update_task_status 5 "Doing" exampleM).tasks = exampleM.tasks ∧
    (∃ u, (update_task_status 2 "Doing" exampleM).tasks = [exTask1] ++ u :: [] ∧
      u.status = "Doing" ∧ u.id = exTask2.id ∧ u.title = exTask2.title ∧
      u.date = exTask2.date) :=
  ⟨(update_task_status_spec exampleM 5 "Doing").1 (by decide),
   (update_task_status_spec exampleM 2 "Doing").2.1 [exTask1] exTask2 []
     (by decide) (by decide) (by decide)⟩

/-- C4: after delete_task no task with the deleted id appears in any
status query's result, and a second delete_task with the same id leaves
the whole store state unchanged. -/
theorem delete_task_spec (m : TaskManager) (task_id : Int) :
    (∀ s : String, ∀ t ∈ get_tasks_by_status s (delete_task task_id m), t.id ≠ task_id) ∧
    delete_task task_id (delete_task task_id m) = delete_task task_id m := by
  constructor
  · intro s t ht
    simp only [get_tasks_by_status, delete_task, save_tasks] at ht
    have h1 := List.mem_of_mem_filter ht
    have h2 := List.of_mem_filter h1
    simpa using h2
  · have key := filter_twice (fun t : TodoTask => t.id != task_id) m.tasks
    calc delete_task task_id (delete_task task_id m)
        = { tasks := (m.tasks.filter (fun t => t.id != task_id)).filter
              (fun t => t.id != task_id),
            file := some (dumpTasks ((m.tasks.filter (fun t => t.id != task_id)).filter
              (fun t => t.id != task_id))) } := rfl
      _ = { tasks := m.tasks.filter (fun t => t.id != task_id),
            file := some (dumpTasks (m.tasks.filter (fun t => t.id != task_id))) } := by
              rw [key]
      _ = delete_task task_id m := rfl

/-- C4 witness: deleting id 1 from the example store keeps task 2 (whose
id differs from 1) and deleting id 1 twice equals deleting it once. -/
theorem delete_task_spec_witness :
    exTask2.id ≠ 1 ∧
    delete_task 1 (delete_task 1 exampleM) = delete_task 1 exampleM :=
  ⟨(delete_task_spec exampleM 1).1 "To do" exTask2 (by decide),
   (delete_task_spec exampleM 1).2⟩

/-- C5: saving and then loading the saved backing file into a fresh
manager reconstructs exactly the pre-save collection: same tasks, same
order, identical id, title, status and date fields. -/
theorem save_load_roundtrip (m : TaskManager) (fresh : List TodoTask) :
    load_tasks { tasks := fresh, file := (save_tasks m).file } =
      some { tasks := m.tasks, file := (save_tasks m).file } := by
  simp [load_tasks, save_tasks, parseTasks_dumpTasks]

/-- C6: get_tasks_by_status returns exactly the subsequence of the
collection consisting of the tasks whose status equals the argument, in
collection order: the result is a sublist of the collection, every
returned task has the requested status, and every task of the collection
with that status is returned.  The operation is a pure function of the
store state, so it mutates nothing and two calls on the same state
coincide definitionally. -/
theorem get_tasks_by_status_spec (m : TaskManager) (s : String) :
    (get_tasks_by_status s m).Sublist m.tasks ∧
    (∀ t ∈ get_tasks_by_status s m, t.status = s) ∧
    (∀ t ∈ m.tasks, t.status = s → t ∈ get_tasks_by_status s m) := by
  refine ⟨List.filter_sublist m.tasks, ?_, ?_⟩
  · intro t ht
    have h2 := List.of_mem_filter ht
    simpa using h2
  · intro t ht hs
    exact List.mem_filter.mpr ⟨ht, by simp [hs]⟩

/-- C6 witness: on the example store the "To do" query is a sublist of
the collection and task 1, which is in "To do", is returned. -/
theorem get_tasks_by_status_spec_witness :
    (get_tasks_by_status "To do" exampleM).Sublist exampleM.tasks ∧
    exTask1 ∈ get_tasks_by_status "To do" exampleM :=
  ⟨(get_tasks_by_status_spec exampleM "To do").1,
   (get_tasks_by_status_spec exampleM "To do").2.2 exTask1 (by decide) (by decide)⟩

/-- C7: in a store whose task ids are pairwise distinct, updating the
status of an existing id moves that task between status buckets: after
update_task_status the query for the old status holds no task with the
id (the old and new statuses being different), and the query for the new
status holds one. -/
theorem update_status_moves_bucket (m : TaskManager) (task_id : Int)
    (told tnew : String)
    (hpw : m.tasks.Pairwise (fun a b => a.id ≠ b.id))
    (t0 : TodoTask) (ht0 : t0 ∈ m.tasks) (hid : t0.id = task_id)
    (_hst : t0.status = told) (hne : told ≠ tnew) :
    (∀ u ∈ get_tasks_by_status told (update_task_status task_id tnew m), u.id ≠ task_id) ∧
    (∃ u ∈ get_tasks_by_status tnew (update_task_status task_id tnew m), u.id = task_id) := by
  constructor
  · intro u hu hid2
    simp only [get_tasks_by_status, update_task_status, save_tasks] at hu
    have h1 := List.mem_of_mem_filter hu
    have h2 : u.status = told := by simpa using List.of_mem_filter hu
    have h3 : u.status = tnew := updateFirst_unique_status task_id tnew hpw u h1 hid2
    exact hne (h2 ▸ h3)
  · rcases updateFirst_found task_id tnew ht0 hid with ⟨u, hu, huid, hust⟩
    refine ⟨u, ?_, huid⟩
    simp only [get_tasks_by_status, update_task_status, save_tasks]
    exact List.mem_filter.mpr ⟨hu, by simp [hust]⟩

/-- C7 witness: updating task 1 of the example store from "To do" to
"Doing" empties id 1 out of the "To do" query and makes the "Doing"
query hold a task with id 1. -/
theorem update_status_moves_bucket_witness :
    (∀ u ∈ get_tasks_by_status "To do" (update_task_status 1 "Doing" exampleM), u.id ≠ 1) ∧
    (∃ u ∈ get_tasks_by_status "Doing" (update_task_status 1 "Doing" exampleM), u.id = 1) :=
  update_status_moves_bucket exampleM 1 "To do" "Doing" (by decide) exTask1
    (by decide) (by decide) (by decide) (by decide)

/-- A state reachable by arbitrary store calls that carries a status
outside the three column values. -/
def c8State : TaskManager :=
  add_task "x" "Bogus" "2024-01-01" initialManager

/-- C8 counterexample: the store methods accept any status string, so a
state produced from the empty collection by one add_task call carries the
status "Bogus", which is none of the three enumerated values. -/
theorem status_enum_counterexample :
    Reachable c8State ∧
    ({ id := 1, title := "x", status := "Bogus", date := "2024-01-01" } : TodoTask)
      ∈ c8State.tasks ∧
    "Bogus" ∉ statusValues :=
  ⟨Reachable.add "x" "Bogus" "2024-01-01" Reachable.init, by decide, by decide⟩

/-- C8 (amended): for every state reachable through the store calls the
KanbanApp UI actually makes — add_task always with status "To do", and
update_task_status only with one of the three column names — the status
of every task in the collection (hence every status value persisted by
save_tasks) is one of "To do", "Doing", "Done". -/
theorem statuses_always_enumerated (m : TaskManager) (hm : ReachableUI m) :
    ∀ t ∈ m.tasks, t.status ∈ statusValues := by
  induction hm with
  | init =>
    intro t ht
    simp [initialManager] at ht
  | add title date_str hr ih =>
    intro t ht
    simp only [add_task, save_tasks] at ht
    rcases List.mem_append.mp ht with h | h
    · exact ih t h
    · rw [List.mem_singleton.mp h]
      show "To do" ∈ statusValues
      decide
  | update task_id new_status hmem hr ih =>
    intro t ht
    simp only [update_task_status, save_tasks] at ht
    rcases mem_updateFirst task_id new_status ht with h | h
    · exact ih t h
    · rw [h]
      exact hmem
  | del task_id hr ih =>
    intro t ht
    simp only [delete_task, save_tasks] at ht
    exact ih t (List.mem_of_mem_filter ht)

/-- A state reached through the UI calls: one task added in "To do",
then moved to "Doing". -/
def c8GoodState : TaskManager :=
  update_task_status 1 "Doing" (add_task "a" "To do" "2024-01-01" initialManager)

/-- C8 witness: the task of the UI-reachable state c8GoodState carries
the enumerated status "Doing". -/
theorem statuses_always_enumerated_witness :
    ({ id := 1, title := "a", status := "Doing", date := "2024-01-01" } : TodoTask).status
      ∈ statusValues :=
  statuses_always_enumerated c8GoodState
    (ReachableUI.update 1 "Doing" (by decide)
      (ReachableUI.add "a" "2024-01-01" ReachableUI.init))
    _ (by decide)

/-- C9: update_task_status changes nothing but the status of the first
matching task: writing the first match as t0 with prefix pre and suffix
post, the new collection is pre ++ (t0 with the new status) :: post, the
id, title and date of t0 are kept, and every task of pre and post —
including any later task sharing the same id — is entirely unchanged. -/
theorem update_task_status_frame (m : TaskManager) (task_id : Int) (new_status : String)
    (pre post : List TodoTask) (t0 : TodoTask)
    (hsplit : m.tasks = pre ++ t0 :: post)
    (hpre : ∀ u ∈ pre, u.id ≠ task_id)
    (h0 : t0.id = task_id) :
    (update_task_status task_id new_status m).tasks =
      pre ++ { t0 with status := new_status } :: post ∧
    ({ t0 with status := new_status } : TodoTask).id = t0.id ∧
    ({ t0 with status := new_status } : TodoTask).title = t0.title ∧
    ({ t0 with status := new_status } : TodoTask).date = t0.date := by
  refine ⟨?_, rfl, rfl, rfl⟩
  show updateFirst task_id new_status m.tasks = _
  rw [hsplit]
  exact updateFirst_split task_id new_status pre post t0 hpre h0

/-- A second task that shares id 1 with exTask1 (such duplicated ids are
reachable, see c1State). -/
def exTaskDup : TodoTask :=
  { id := 1, title := "c", status := "To do", date := "2024-01-03" }

/-- A store holding two tasks with the same id 1. -/
def exDupM : TaskManager :=
  { tasks := [exTask1, exTaskDup], file := none }

/-- C9 witness: updating id 1 in a store where a later task shares id 1
rewrites only the first task's status and leaves the later task with the
same id entirely unchanged. -/
theorem update_task_status_frame_witness :
    (update_task_status 1 "Doing" exDupM).tasks =
      [] ++ { exTask1 with status := "Doing" } :: [exTaskDup] ∧
    ({ exTask1 with status := "Doing" } : TodoTask).id = exTask1.id ∧
    ({ exTask1 with status := "Doing" } : TodoTask).title = exTask1.title ∧
    ({ exTask1 with status := "Doing" } : TodoTask).date = exTask1.date :=
  update_task_status_frame exDupM 1 "Doing" [] [exTaskDup] exTask1
    (by decide) (by simp) (by decide)

/-- C10: the store validates nothing: add_task appends a task carrying
any title (the empty string included), any status string and any date
string verbatim, while the empty-title rejection lives only in the UI
dialog's confirm callback, which leaves the store untouched when the
stripped title is empty. -/
theorem add_task_no_validation (title status date_str : String) (m : TaskManager)
    (raw : String) (hraw : pyStrip raw = "") :
    (add_task title status date_str m).tasks =
      m.tasks ++ [{ id := (m.tasks.length : Int) + 1, title := title,
                    status := status, date := date_str }] ∧
    confirmAddTask raw date_str m = m :=
  ⟨rfl, by simp [confirmAddTask, hraw]⟩

/-- C10 witness: adding an empty title, a status outside the enum and a
non-date string succeeds verbatim on the store, while the UI confirm
callback with a whitespace-only title leaves the example store as it
was. -/
theorem add_task_no_validation_witness :
    (add_task "" "Nonsense" "not-a-date" exampleM).tasks =
      exampleM.tasks ++ [{ id := (exampleM.tasks.length : Int) + 1, title := "",
                           status := "Nonsense", date := "not-a-date" }] ∧
    confirmAddTask "  " "not-a-date" exampleM = exampleM :=
  add_task_no_validation "" "Nonsense" "not-a-date" exampleM "  " (by decide)
